import Mathlib

/-!
Shallow embedding of the mcp-logseq-rust MCP server (src/main.rs,
src/tools/mod.rs, src/tools/query.rs, src/tools/mutate.rs,
src/logseq_client.rs) and proofs about its JSON-RPC protocol behaviour.

JSON values are modelled by a mutual inductive (`Json` / `JsonA` / `JsonO`)
so that all recursions are structural and kernel-reducible.  Object entries
keep insertion order (serde_json may sort or randomise key order; every
statement below is about field values, never about key order of the
serialised text).  The Logseq HTTP backend is abstracted as an oracle
`Backend`; each outbound HTTP call is recorded in a trace so that theorems
can speak about which backend operations a handler invokes and with which
argument arrays.
-/

mutual
/-- JSON value, mirroring serde_json::Value. Numbers are restricted to the
integers, which covers every numeric literal this program produces or
inspects. -/
inductive Json where
  | null : Json
  | bool (b : Bool) : Json
  | num (n : Int) : Json
  | str (s : String) : Json
  | arr (elems : JsonA) : Json
  | obj (entries : JsonO) : Json

inductive JsonA where
  | nil : JsonA
  | cons (hd : Json) (tl : JsonA) : JsonA

inductive JsonO where
  | nil : JsonO
  | cons (key : String) (val : Json) (tl : JsonO) : JsonO
end

/-- Build a JSON array from a Lean list. -/
def JsonA.ofList : List Json → JsonA
  | [] => .nil
  | x :: xs => .cons x (JsonA.ofList xs)

/-- Build a JSON object from a Lean association list (insertion order). -/
def JsonO.ofList : List (String × Json) → JsonO
  | [] => .nil
  | (k, v) :: xs => .cons k v (JsonO.ofList xs)

/-- Shorthand for array literals. -/
def jarr (xs : List Json) : Json := .arr (JsonA.ofList xs)

/-- Shorthand for object literals. -/
def jobj (xs : List (String × Json)) : Json := .obj (JsonO.ofList xs)

/-- First value stored under a key in an object. -/
def JsonO.lookupKey : JsonO → String → Option Json
  | .nil, _ => none
  | .cons k v tl, key => if k = key then some v else JsonO.lookupKey tl key

/-- Models serde_json `Value::get(key)`: `Some` field value on objects that
contain the key, `None` on missing keys and on every non-object value. -/
def Json.get (j : Json) (key : String) : Option Json :=
  match j with
  | .obj fs => JsonO.lookupKey fs key
  | _ => none

/-- Models serde_json read indexing `value[key]` (the `Index<&str>` impl):
yields `null` when the key is missing or the value is not an object. -/
def Json.index (j : Json) (key : String) : Json :=
  (j.get key).getD Json.null

/-- Models serde_json `Value::as_str`. -/
def Json.asStr : Json → Option String
  | .str s => some s
  | _ => none

/-- Models serde_json `Value::as_bool`. -/
def Json.asBool : Json → Option Bool
  | .bool b => some b
  | _ => none

/-- Models serde_json `Value::is_null`. -/
def Json.isNull : Json → Bool
  | .null => true
  | _ => false

/-- True exactly on JSON objects. -/
def Json.isObj : Json → Bool
  | .obj _ => true
  | _ => false

/-- Lowercase hexadecimal digit, as used by serde_json string escapes. -/
def hexDigit (n : Nat) : Char :=
  if n < 10 then Char.ofNat (48 + n) else Char.ofNat (87 + n)

/-- serde_json escaping of a single character inside a JSON string. -/
def escapeChar (c : Char) : String :=
  if c = '\"' then "\\\""
  else if c = '\\' then "\\\\"
  else if c = '\x08' then "\\b"
  else if c = '\x0c' then "\\f"
  else if c = '\n' then "\\n"
  else if c = '\r' then "\\r"
  else if c = '\t' then "\\t"
  else if c.toNat < 32 then
    "\\u00" ++ String.singleton (hexDigit (c.toNat / 16)) ++ String.singleton (hexDigit (c.toNat % 16))
  else String.singleton c

/-- serde_json escaping of a whole string (without the surrounding quotes). -/
def escapeString (s : String) : String :=
  String.join (s.toList.map escapeChar)

mutual
/-- Compact rendering, mirroring serde_json `to_string` / the `Display`
instance of `Value` (modulo object key order, see the header note). -/
def Json.render : Json → String
  | .null => "null"
  | .bool true => "true"
  | .bool false => "false"
  | .num n => toString n
  | .str s => "\"" ++ escapeString s ++ "\""
  | .arr es => "[" ++ JsonA.render es ++ "]"
  | .obj fs => "\x7b" ++ JsonO.render fs ++ "\x7d"

def JsonA.render : JsonA → String
  | .nil => ""
  | .cons x .nil => Json.render x
  | .cons x (.cons y tl) => Json.render x ++ "," ++ JsonA.render (.cons y tl)

def JsonO.render : JsonO → String
  | .nil => ""
  | .cons k v .nil => "\"" ++ escapeString k ++ "\":" ++ Json.render v
  | .cons k v (.cons k2 v2 tl) =>
      "\"" ++ escapeString k ++ "\":" ++ Json.render v ++ "," ++ JsonO.render (.cons k2 v2 tl)
end

/-- Two-space indentation used by serde_json's pretty formatter. -/
def indentStr (n : Nat) : String := String.join (List.replicate n "  ")

mutual
/-- Pretty rendering with two-space indentation, mirroring serde_json
`to_string_pretty`: empty arrays and objects stay compact, each element of a
non-empty aggregate sits on its own indented line. -/
def Json.pretty : Nat → Json → String
  | _, .null => "null"
  | _, .bool true => "true"
  | _, .bool false => "false"
  | _, .num n => toString n
  | _, .str s => "\"" ++ escapeString s ++ "\""
  | _, .arr .nil => "[]"
  | ind, .arr (.cons x tl) =>
      "[\n" ++ JsonA.pretty (ind + 1) (.cons x tl) ++ "\n" ++ indentStr ind ++ "]"
  | _, .obj .nil => "\x7b\x7d"
  | ind, .obj (.cons k v tl) =>
      "\x7b\n" ++ JsonO.pretty (ind + 1) (.cons k v tl) ++ "\n" ++ indentStr ind ++ "\x7d"

def JsonA.pretty : Nat → JsonA → String
  | _, .nil => ""
  | ind, .cons x .nil => indentStr ind ++ Json.pretty ind x
  | ind, .cons x (.cons y tl) =>
      indentStr ind ++ Json.pretty ind x ++ ",\n" ++ JsonA.pretty ind (.cons y tl)

def JsonO.pretty : Nat → JsonO → String
  | _, .nil => ""
  | ind, .cons k v .nil =>
      indentStr ind ++ "\"" ++ escapeString k ++ "\": " ++ Json.pretty ind v
  | ind, .cons k v (.cons k2 v2 tl) =>
      indentStr ind ++ "\"" ++ escapeString k ++ "\": " ++ Json.pretty ind v
        ++ ",\n" ++ JsonO.pretty ind (.cons k2 v2 tl)
end

/-- Models serde_json `to_string_pretty` as used in handle_tool_call. -/
def to_string_pretty (j : Json) : String := Json.pretty 0 j

/-- One outbound HTTP call: the Logseq API method name and the positional
argument array of the request envelope built in LogseqClient::call_api. -/
abbrev Call := String × List Json

/-- Oracle for the external Logseq HTTP endpoint: given the method and args
of the POST envelope it yields either the parsed JSON response body, or an
`error` string standing for a transport-level failure (connection error or
non-JSON body), which reqwest propagates as-is. -/
abbrev Backend := String → List Json → Except String Json

/-- Embeds LogseqClient::call_api (src/logseq_client.rs): performs the POST
(recorded in the trace), then classifies the parsed body — a top-level
`error` field becomes a failure with the stringified error embedded,
anything else is the success value. -/
def call_api (b : Backend) (method : String) (args : List Json) :
    Except String Json × List Call :=
  (match b method args with
   | .error e => .error e
   | .ok result =>
     match result.get "error" with
     | some err => .error ("Logseq API error: " ++ err.render)
     | none => .ok result,
   [(method, args)])

namespace LogseqClient

/-- Embeds LogseqClient::get_current_graph. -/
def get_current_graph (b : Backend) : Except String Json × List Call :=
  call_api b "logseq.App.getCurrentGraph" []

/-- Embeds LogseqClient::get_all_pages. -/
def get_all_pages (b : Backend) : Except String Json × List Call :=
  call_api b "logseq.Editor.getAllPages" []

/-- Embeds LogseqClient::get_page. -/
def get_page (b : Backend) (page_name : String) : Except String Json × List Call :=
  call_api b "logseq.Editor.getPage" [Json.str page_name]

/-- Embeds LogseqClient::get_page_blocks_tree. -/
def get_page_blocks_tree (b : Backend) (page_name : String) :
    Except String Json × List Call :=
  call_api b "logseq.Editor.getPageBlocksTree" [Json.str page_name]

/-- Embeds LogseqClient::get_block. -/
def get_block (b : Backend) (uuid : String) : Except String Json × List Call :=
  call_api b "logseq.Editor.getBlock" [Json.str uuid]

/-- Embeds LogseqClient::search. -/
def search (b : Backend) (query : String) : Except String Json × List Call :=
  call_api b "logseq.App.search" [Json.str query]

/-- Embeds LogseqClient::create_page: the args array always carries the page
name and additionally a `{content, format: markdown}` object exactly when a
content string was supplied. -/
def create_page (b : Backend) (page_name : String) (content : Option String) :
    Except String Json × List Call :=
  let args := [Json.str page_name] ++
    (match content with
     | some c => [jobj [("content", .str c), ("format", .str "markdown")]]
     | none => [])
  call_api b "logseq.Editor.createPage" args

/-- Embeds LogseqClient::insert_block. -/
def insert_block (b : Backend) (parent_uuid content : String) (sibling : Bool) :
    Except String Json × List Call :=
  call_api b "logseq.Editor.insertBlock"
    [Json.str parent_uuid, Json.str content, jobj [("sibling", .bool sibling)]]

/-- Embeds LogseqClient::update_block. -/
def update_block (b : Backend) (uuid content : String) :
    Except String Json × List Call :=
  call_api b "logseq.Editor.updateBlock" [Json.str uuid, Json.str content]

/-- Embeds LogseqClient::delete_block (backend method removeBlock). -/
def delete_block (b : Backend) (uuid : String) : Except String Json × List Call :=
  call_api b "logseq.Editor.removeBlock" [Json.str uuid]

/-- Embeds LogseqClient::append_block_in_page. -/
def append_block_in_page (b : Backend) (page_name content : String) :
    Except String Json × List Call :=
  call_api b "logseq.Editor.appendBlockInPage" [Json.str page_name, Json.str content]

end LogseqClient

/-- JSON Schema description of a tool's parameters (src/tools/mod.rs,
struct ToolInputSchema). Properties keep the insertion order of the source's
HashMap::insert calls. -/
structure ToolInputSchema where
  type : String
  properties : Option (List (String × Json))
  required : Option (List String)

/-- A registered MCP tool (src/tools/mod.rs, struct Tool). -/
structure Tool where
  name : String
  description : Option String
  input_schema : ToolInputSchema

/-- Embeds get_all_tools (src/tools/mod.rs): the ten tool descriptors, in
registration order. -/
def get_all_tools : List Tool :=
  [ { name := "list_graphs",
      description := some "List available Logseq graphs",
      input_schema :=
        { type := "object", properties := some [], required := none } },
    { name := "list_pages",
      description := some "List all pages in the current graph",
      input_schema :=
        { type := "object", properties := some [], required := none } },
    { name := "get_page",
      description := some "Get content of a specific page by name",
      input_schema :=
        { type := "object",
          properties := some
            [("page_name", jobj [("type", .str "string"),
               ("description", .str "Name of the page to retrieve")])],
          required := some ["page_name"] } },
    { name := "get_block",
      description := some "Get a specific block by its UUID",
      input_schema :=
        { type := "object",
          properties := some
            [("uuid", jobj [("type", .str "string"),
               ("description", .str "UUID of the block to retrieve")])],
          required := some ["uuid"] } },
    { name := "search",
      description := some "Search across all pages in the graph",
      input_schema :=
        { type := "object",
          properties := some
            [("query", jobj [("type", .str "string"),
               ("description", .str "Search query string")])],
          required := some ["query"] } },
    { name := "create_page",
      description := some "Create a new page with optional content",
      input_schema :=
        { type := "object",
          properties := some
            [("page_name", jobj [("type", .str "string"),
               ("description", .str "Name of the page to create")]),
             ("content", jobj [("type", .str "string"),
               ("description", .str "Initial content for the page (optional)")])],
          required := some ["page_name"] } },
    { name := "update_block",
      description := some "Update the content of an existing block",
      input_schema :=
        { type := "object",
          properties := some
            [("uuid", jobj [("type", .str "string"),
               ("description", .str "UUID of the block to update")]),
             ("content", jobj [("type", .str "string"),
               ("description", .str "New content for the block")])],
          required := some ["uuid", "content"] } },
    { name := "insert_block",
      description := some "Insert a new block with precise positioning control",
      input_schema :=
        { type := "object",
          properties := some
            [("parent_uuid", jobj [("type", .str "string"),
               ("description", .str "UUID of the parent block or page")]),
             ("content", jobj [("type", .str "string"),
               ("description", .str "Content for the new block")]),
             ("sibling", jobj [("type", .str "boolean"),
               ("description", .str "Whether to insert as sibling (true) or child (false)"),
               ("default", .bool false)])],
          required := some ["parent_uuid", "content"] } },
    { name := "delete_block",
      description := some "Delete a block by its UUID",
      input_schema :=
        { type := "object",
          properties := some
            [("uuid", jobj [("type", .str "string"),
               ("description", .str "UUID of the block to delete")])],
          required := some ["uuid"] } },
    { name := "append_to_page",
      description := some "Append a block to the end of a page",
      input_schema :=
        { type := "object",
          properties := some
            [("page_name", jobj [("type", .str "string"),
               ("description", .str "Name of the page to append to")]),
             ("content", jobj [("type", .str "string"),
               ("description", .str "Content to append")])],
          required := some ["page_name", "content"] } } ]

namespace query

/-- Embeds query::list_graphs (src/tools/query.rs). -/
def list_graphs (b : Backend) (_params : Json) : Except String Json × List Call :=
  let (r, t) := LogseqClient.get_current_graph b
  (match r with
   | .error e => .error e
   | .ok graph => .ok (jobj [("graphs", jarr [graph])]),
   t)

/-- Embeds query::list_pages (src/tools/query.rs). -/
def list_pages (b : Backend) (_params : Json) : Except String Json × List Call :=
  let (r, t) := LogseqClient.get_all_pages b
  (match r with
   | .error e => .error e
   | .ok pages => .ok (jobj [("pages", pages)]),
   t)

/-- Embeds query::get_page (src/tools/query.rs): validates page_name, then
fetches the page metadata and, if that succeeded, the page block tree, and
merges the two results. -/
def get_page (b : Backend) (params : Json) : Except String Json × List Call :=
  match (params.index "page_name").asStr with
  | none => (.error "page_name parameter is required", [])
  | some page_name =>
    let (r1, t1) := LogseqClient.get_page b page_name
    match r1 with
    | .error e => (.error e, t1)
    | .ok page_info =>
      let (r2, t2) := LogseqClient.get_page_blocks_tree b page_name
      (match r2 with
       | .error e => .error e
       | .ok blocks => .ok (jobj [("page", page_info), ("blocks", blocks)]),
       t1 ++ t2)

/-- Embeds query::get_block (src/tools/query.rs). -/
def get_block (b : Backend) (params : Json) : Except String Json × List Call :=
  match (params.index "uuid").asStr with
  | none => (.error "uuid parameter is required", [])
  | some uuid =>
    let (r, t) := LogseqClient.get_block b uuid
    (match r with
     | .error e => .error e
     | .ok block => .ok (jobj [("block", block)]),
     t)

/-- Embeds query::search (src/tools/query.rs). -/
def search (b : Backend) (params : Json) : Except String Json × List Call :=
  match (params.index "query").asStr with
  | none => (.error "query parameter is required", [])
  | some q =>
    let (r, t) := LogseqClient.search b q
    (match r with
     | .error e => .error e
     | .ok results => .ok (jobj [("results", results)]),
     t)

end query

namespace mutate

/-- Embeds mutate::create_page (src/tools/mutate.rs): content is optional
and forwarded only when it is a string. -/
def create_page (b : Backend) (params : Json) : Except String Json × List Call :=
  match (params.index "page_name").asStr with
  | none => (.error "page_name parameter is required", [])
  | some page_name =>
    let content := (params.index "content").asStr
    let (r, t) := LogseqClient.create_page b page_name content
    (match r with
     | .error e => .error e
     | .ok result => .ok (jobj [("success", .bool true), ("page", result)]),
     t)

/-- Embeds mutate::update_block (src/tools/mutate.rs). -/
def update_block (b : Backend) (params : Json) : Except String Json × List Call :=
  match (params.index "uuid").asStr with
  | none => (.error "uuid parameter is required", [])
  | some uuid =>
    match (params.index "content").asStr with
    | none => (.error "content parameter is required", [])
    | some content =>
      let (r, t) := LogseqClient.update_block b uuid content
      (match r with
       | .error e => .error e
       | .ok result => .ok (jobj [("success", .bool true), ("block", result)]),
       t)

/-- Embeds mutate::insert_block (src/tools/mutate.rs): sibling defaults to
false when absent or not a boolean. -/
def insert_block (b : Backend) (params : Json) : Except String Json × List Call :=
  match (params.index "parent_uuid").asStr with
  | none => (.error "parent_uuid parameter is required", [])
  | some parent_uuid =>
    match (params.index "content").asStr with
    | none => (.error "content parameter is required", [])
    | some content =>
      let sibling := ((params.index "sibling").asBool).getD false
      let (r, t) := LogseqClient.insert_block b parent_uuid content sibling
      (match r with
       | .error e => .error e
       | .ok result => .ok (jobj [("success", .bool true), ("block", result)]),
       t)

/-- Embeds mutate::delete_block (src/tools/mutate.rs). -/
def delete_block (b : Backend) (params : Json) : Except String Json × List Call :=
  match (params.index "uuid").asStr with
  | none => (.error "uuid parameter is required", [])
  | some uuid =>
    let (r, t) := LogseqClient.delete_block b uuid
    (match r with
     | .error e => .error e
     | .ok result => .ok (jobj [("success", .bool true), ("result", result)]),
     t)

/-- Embeds mutate::append_to_page (src/tools/mutate.rs). -/
def append_to_page (b : Backend) (params : Json) : Except String Json × List Call :=
  match (params.index "page_name").asStr with
  | none => (.error "page_name parameter is required", [])
  | some page_name =>
    match (params.index "content").asStr with
    | none => (.error "content parameter is required", [])
    | some content =>
      let (r, t) := LogseqClient.append_block_in_page b page_name content
      (match r with
       | .error e => .error e
       | .ok result => .ok (jobj [("success", .bool true), ("block", result)]),
       t)

end mutate

/-- Rendering of one tool descriptor as it appears (identically) in the
`initialize` and `tools/list` results (src/main.rs, the two `tools.iter().map`
closures): missing description becomes the empty string, missing properties
an empty object, missing required an empty array. -/
def renderTool (tool : Tool) : Json :=
  jobj [("name", .str tool.name),
        ("description", .str (tool.description.getD "")),
        ("inputSchema", jobj
          [("type", .str tool.input_schema.type),
           ("properties", jobj (tool.input_schema.properties.getD [])),
           ("required", jarr ((tool.input_schema.required.getD []).map Json.str))])]

/-- Embeds handle_initialize (src/main.rs): protocol version, capabilities,
server identity and the rendered tool list, always emitted. -/
def handle_init (id : Json) : Json :=
  jobj [("jsonrpc", .str "2.0"), ("id", id),
        ("result", jobj
          [("protocolVersion", .str "2024-11-05"),
           ("capabilities", jobj [("tools", jobj []), ("logseq", .bool true)]),
           ("serverInfo", jobj [("name", .str "mcp-logseq-rust"),
                                ("version", .str "1.0.0")]),
           ("tools", jarr (get_all_tools.map renderTool))])]

/-- Embeds handle_initialized (src/main.rs): a null id (after the caller's
defaulting of an absent id to 0) yields the in-band skip marker, any other id
is acknowledged with an empty result object. -/
def handle_initialized (id : Json) : Json :=
  if id.isNull then jobj [("_skip_response", .bool true)]
  else jobj [("jsonrpc", .str "2.0"), ("id", id), ("result", jobj [])]

/-- Embeds handle_ping (src/main.rs). -/
def handle_ping (id : Json) : Json :=
  jobj [("jsonrpc", .str "2.0"), ("id", id), ("result", jobj [])]

/-- Embeds handle_notifications_initialized (src/main.rs): always an empty
result object, whatever the id. -/
def handle_notifications_initialized (id : Json) : Json :=
  jobj [("jsonrpc", .str "2.0"), ("id", id), ("result", jobj [])]

/-- Embeds handle_tools_list (src/main.rs). -/
def handle_tools_list (id : Json) : Json :=
  jobj [("jsonrpc", .str "2.0"), ("id", id),
        ("result", jobj [("tools", jarr (get_all_tools.map renderTool))])]

/-- Embeds the tool-name match inside handle_tool_call (src/main.rs,
lines 339-351): the ten registered handlers plus the unknown-tool failure. -/
def dispatch_tool (b : Backend) (tool_name : String) (tool_params : Json) :
    Except String Json × List Call :=
  match tool_name with
  | "list_graphs" => query.list_graphs b tool_params
  | "list_pages" => query.list_pages b tool_params
  | "get_page" => query.get_page b tool_params
  | "get_block" => query.get_block b tool_params
  | "search" => query.search b tool_params
  | "create_page" => mutate.create_page b tool_params
  | "update_block" => mutate.update_block b tool_params
  | "insert_block" => mutate.insert_block b tool_params
  | "delete_block" => mutate.delete_block b tool_params
  | "append_to_page" => mutate.append_to_page b tool_params
  | _ => (.error ("Unknown tool: " ++ tool_name), [])

/-- Embeds handle_tool_call (src/main.rs).  The two `ok_or_else(..)?` early
returns on a missing `params` field and a missing/non-string `params.name`
surface as the `Except.error` of the outer pair: they escape handle_tool_call
as a Rust `Err` and are NOT turned into a JSON-RPC error response.  Handler
results, by contrast, are matched and formatted: success becomes one
pretty-printed text content block, failure becomes a -32603 error response. -/
def handle_tool_call (id : Json) (request : Json) (b : Backend) :
    Except String Json × List Call :=
  match request.get "params" with
  | none => (.error "Missing params", [])
  | some params =>
    match (params.get "name").bind Json.asStr with
    | none => (.error "Missing tool name", [])
    | some tool_name =>
      let tool_params := (params.get "arguments").getD (jobj [])
      match dispatch_tool b tool_name tool_params with
      | (.ok tool_result, t) =>
        (.ok (jobj [("jsonrpc", .str "2.0"), ("id", id),
               ("result", jobj [("content", jarr
                 [jobj [("type", .str "text"),
                        ("text", .str (to_string_pretty tool_result))]])])]),
         t)
      | (.error e, t) =>
        (.ok (jobj [("jsonrpc", .str "2.0"), ("id", id),
               ("error", jobj [("code", .num (-32603)),
                 ("message", .str ("Tool execution failed: " ++ e))])]),
         t)

/-- Embeds handle_request (src/main.rs): an absent id is replaced by the JSON
number 0 (a present null id is kept as null), a missing or non-string method
becomes the empty string, and the method name is dispatched case-sensitively.
The `Except.error` outcome models a Rust `Err` escaping handle_request. -/
def handle_request (request : Json) (b : Backend) :
    Except String Json × List Call :=
  let id := (request.get "id").getD (.num 0)
  let method := ((request.get "method").bind Json.asStr).getD ""
  match method with
  | "initialize" => (.ok (handle_init id), [])
  | "initialized" => (.ok (handle_initialized id), [])
  | "notifications/initialized" => (.ok (handle_notifications_initialized id), [])
  | "ping" => (.ok (handle_ping id), [])
  | "tools/list" => (.ok (handle_tools_list id), [])
  | "tools/call" => handle_tool_call id request b
  | _ => (.ok (jobj [("jsonrpc", .str "2.0"), ("id", id),
           ("error", jobj [("code", .num (-32601)),
             ("message", .str ("Method '" ++ method ++ "' not found"))])]),
         [])

/-- One line read from stdin, abstracted by its serde_json parse outcome:
blank (whitespace only), malformed (parse error), or a parsed JSON value. -/
inductive Line where
  | blank : Line
  | malformed : Line
  | parsed (request : Json) : Line

/-- Embeds the `_skip_response` marker check in run_mcp_server (src/main.rs,
lines 109-114). -/
def skipResponse (response : Json) : Bool :=
  match response.get "_skip_response" with
  | some skip => skip.asBool.getD false
  | none => false

/-- Embeds the run_mcp_server loop (src/main.rs): blank and malformed lines
are skipped, each parsed request is handled to completion; an emitted
response is written to stdout before the next line is read, a skip-marked
response is suppressed.  The result collects the stdout lines (as JSON
values) together with `some e` when a request handler's `Err` escaped
through the `?` operator, terminating the loop (and the process) early. -/
def run_mcp_server (b : Backend) : List Line → List Json × Option String
  | [] => ([], none)
  | .blank :: rest => run_mcp_server b rest
  | .malformed :: rest => run_mcp_server b rest
  | .parsed request :: rest =>
    match (handle_request request b).1 with
    | .error e => ([], some e)
    | .ok response =>
      if skipResponse response then run_mcp_server b rest
      else
        let (outs, fault) := run_mcp_server b rest
        (response :: outs, fault)

/-- The ten registered tool names, in registration order. -/
def toolNameList : List String :=
  ["list_graphs", "list_pages", "get_page", "get_block", "search",
   "create_page", "update_block", "insert_block", "delete_block", "append_to_page"]

/-- A well-formed `tools/call` request carrying an id field. -/
def toolCallRequest (id : Json) (name : String) (args : Json) : Json :=
  jobj [("jsonrpc", .str "2.0"), ("id", id), ("method", .str "tools/call"),
        ("params", jobj [("name", .str name), ("arguments", args)])]

/-- The -32603 error response shape produced by handle_tool_call. -/
def toolErrorResponse (id : Json) (msg : String) : Json :=
  jobj [("jsonrpc", .str "2.0"), ("id", id),
        ("error", jobj [("code", .num (-32603)), ("message", .str msg)])]

/-- Required-parameter list of a tool descriptor (empty when undeclared). -/
def requiredOf (t : Tool) : List String := t.input_schema.required.getD []

/-- First required parameter that is missing or not a string in the given
arguments, following the declaration order, which for every registered tool
coincides with its handler's checking order. -/
def firstMissingRequired : List String → Json → Option String
  | [], _ => none
  | q :: qs, args =>
    if ((args.index q).asStr).isNone then some q
    else firstMissingRequired qs args

/-- Helper: the tool-name match in handle_tool_call falls through to the
unknown-tool failure exactly on names outside the registered ten. -/
theorem dispatch_tool_unknown (b : Backend) (p : Json) (name : String)
    (h : name ∉ toolNameList) :
    dispatch_tool b name p = (.error ("Unknown tool: " ++ name), []) := by
  unfold dispatch_tool
  split
  all_goals first
    | rfl
    | simp_all [toolNameList]

/-- Helper: on a well-formed tools/call request, handle_request reduces to
formatting the dispatch result: success becomes a text content block,
failure a -32603 error response. -/
theorem handle_tool_call_wraps (id args : Json) (b : Backend) (name : String) :
    handle_request (toolCallRequest id name args) b
      = (match dispatch_tool b name args with
         | (.ok tool_result, t) =>
           (.ok (jobj [("jsonrpc", .str "2.0"), ("id", id),
             ("result", jobj [("content", jarr
               [jobj [("type", .str "text"),
                      ("text", .str (to_string_pretty tool_result))]])])]),
            t)
         | (.error e, t) =>
           (.ok (toolErrorResponse id ("Tool execution failed: " ++ e)), t)) := rfl

/-- C1: the claim fails on the code.  A `tools/call` request with no
`params`, or with `params.name` absent or not a string, does not produce a
-32603 error response: the two `ok_or_else(..)?` early returns in
handle_tool_call escape handle_request as a Rust `Err`, and the `?` in
run_mcp_server terminates the loop with no output line at all. -/
theorem C1_missing_params_escapes_as_uncaught_err (b : Backend) :
    (handle_request (jobj [("jsonrpc", .str "2.0"), ("id", .num 1),
        ("method", .str "tools/call")]) b).1 = .error "Missing params"
  ∧ (handle_request (jobj [("jsonrpc", .str "2.0"), ("id", .num 1),
        ("method", .str "tools/call"),
        ("params", jobj [("arguments", jobj [])])]) b).1 = .error "Missing tool name"
  ∧ (handle_request (jobj [("jsonrpc", .str "2.0"), ("id", .num 1),
        ("method", .str "tools/call"),
        ("params", jobj [("name", .num 7)])]) b).1 = .error "Missing tool name"
  ∧ run_mcp_server b [.parsed (jobj [("jsonrpc", .str "2.0"), ("id", .num 1),
        ("method", .str "tools/call")])]
      = ([], some "Missing params") :=
  ⟨rfl, rfl, rfl, rfl⟩

/-- C2: the claim fails on the code.  A line that parses as a JSON value
(`tools/call` with no `params`) makes the handler's `Err` escape through the
`?` in run_mcp_server: the loop terminates before the following valid `ping`
line is ever processed, while the same `ping` alone is answered normally. -/
theorem C2_bad_request_terminates_loop (b : Backend) :
    run_mcp_server b
      [.parsed (jobj [("jsonrpc", .str "2.0"), ("id", .num 1), ("method", .str "tools/call")]),
       .parsed (jobj [("jsonrpc", .str "2.0"), ("id", .num 2), ("method", .str "ping")])]
      = ([], some "Missing params")
  ∧ run_mcp_server b
      [.parsed (jobj [("jsonrpc", .str "2.0"), ("id", .num 2), ("method", .str "ping")])]
      = ([jobj [("jsonrpc", .str "2.0"), ("id", .num 2), ("result", jobj [])]], none) :=
  ⟨rfl, rfl⟩

/-- C3: the claim fails on the code.  An `initialized` request with ABSENT
id is not suppressed: handle_request replaces the absent id by 0 before
handle_initialized tests `is_null`, so an empty-result response with id 0 is
emitted.  Only a present null id is suppressed.  `notifications/initialized`
always emits, as the claim says. -/
theorem C3_initialized_absent_id_emits (b : Backend) :
    run_mcp_server b
      [.parsed (jobj [("jsonrpc", .str "2.0"), ("method", .str "initialized")])]
      = ([jobj [("jsonrpc", .str "2.0"), ("id", .num 0), ("result", jobj [])]], none)
  ∧ run_mcp_server b
      [.parsed (jobj [("jsonrpc", .str "2.0"), ("id", Json.null), ("method", .str "initialized")])]
      = ([], none)
  ∧ run_mcp_server b
      [.parsed (jobj [("jsonrpc", .str "2.0"), ("method", .str "notifications/initialized")])]
      = ([jobj [("jsonrpc", .str "2.0"), ("id", .num 0), ("result", jobj [])]], none)
  ∧ run_mcp_server b
      [.parsed (jobj [("jsonrpc", .str "2.0"), ("id", Json.null),
          ("method", .str "notifications/initialized")])]
      = ([jobj [("jsonrpc", .str "2.0"), ("id", Json.null), ("result", jobj [])]], none) :=
  ⟨rfl, rfl, rfl, rfl⟩

/-- C4: the claim fails on the code.  `request.get("id").cloned().unwrap_or(json!(0))`
only replaces an ABSENT id: a present null id flows through unchanged, and a
`ping` with `"id": null` is answered with a response whose id is the JSON
null — the emitted-id invariant is violated.  (An absent id is indeed
replaced by the number 0, as the third conjunct shows.) -/
theorem C4_present_null_id_echoed_as_null (b : Backend) :
    run_mcp_server b
      [.parsed (jobj [("jsonrpc", .str "2.0"), ("id", Json.null), ("method", .str "ping")])]
      = ([jobj [("jsonrpc", .str "2.0"), ("id", Json.null), ("result", jobj [])]], none)
  ∧ (jobj [("jsonrpc", .str "2.0"), ("id", Json.null), ("result", jobj [])]).index "id"
      = Json.null
  ∧ run_mcp_server b
      [.parsed (jobj [("jsonrpc", .str "2.0"), ("method", .str "ping")])]
      = ([jobj [("jsonrpc", .str "2.0"), ("id", .num 0), ("result", jobj [])]], none) :=
  ⟨rfl, rfl, rfl⟩

/-- C8: `tools/call` of get_page with `{page_name: "X"}` invokes the
getPage and getPageBlocksTree backend operations, both with argument array
`["X"]`, and the success response's single text content block carries the
pretty-printed merge `{page: <getPage result>, blocks: <getPageBlocksTree
result>}`, here equal to the JSON value
`{"page": {"name": "X"}, "blocks": []}`. -/
theorem C8_get_page_merges_page_and_blocks :
    handle_request (toolCallRequest (.num 3) "get_page" (jobj [("page_name", .str "X")]))
      (fun method _args =>
        if method = "logseq.Editor.getPage" then .ok (jobj [("name", .str "X")])
        else if method = "logseq.Editor.getPageBlocksTree" then .ok (jarr [])
        else .error "unexpected backend call")
    = (.ok (jobj [("jsonrpc", .str "2.0"), ("id", .num 3),
         ("result", jobj [("content", jarr
           [jobj [("type", .str "text"),
                  ("text", .str (to_string_pretty
                    (jobj [("page", jobj [("name", .str "X")]),
                           ("blocks", jarr [])])))]])])]),
       [("logseq.Editor.getPage", [.str "X"]),
        ("logseq.Editor.getPageBlocksTree", [.str "X"])])
  ∧ to_string_pretty (jobj [("page", jobj [("name", .str "X")]), ("blocks", jarr [])])
      = "\x7b\n  \"page\": \x7b\n    \"name\": \"X\"\n  \x7d,\n  \"blocks\": []\n\x7d" :=
  ⟨rfl, rfl⟩

/-- C5: the `initialize` result and the `tools/list` result render the same
tool array (same names, descriptions and input schemas, straight from the
registry), the registry's names are exactly the ten registered ones, every
name outside the ten falls through dispatch to the unknown-tool failure, and
every registered name is dispatchable (its handler runs and, given all its
required parameters and a benign backend, succeeds). -/
theorem C5_registry_and_dispatch_agree (id p : Json) (b : Backend) :
    ((handle_init id).index "result").index "tools"
        = ((handle_tools_list id).index "result").index "tools"
  ∧ ((handle_tools_list id).index "result").index "tools"
        = jarr (get_all_tools.map renderTool)
  ∧ get_all_tools.map Tool.name = toolNameList
  ∧ (∀ name, name ∉ toolNameList →
        dispatch_tool b name p = (.error ("Unknown tool: " ++ name), []))
  ∧ (∀ name ∈ toolNameList, ∃ r t,
        dispatch_tool (fun _ _ => .ok (jobj [])) name
          (jobj [("page_name", .str "p"), ("uuid", .str "u"), ("content", .str "c"),
                 ("query", .str "q"), ("parent_uuid", .str "s")])
          = (.ok r, t)) := by
  refine ⟨rfl, rfl, rfl, fun name h => dispatch_tool_unknown b p name h, ?_⟩
  intro name h
  fin_cases h <;> exact ⟨_, _, rfl⟩

/-- Witness for C5 at concrete inputs: an unregistered name is not
dispatchable, a registered one is. -/
theorem C5_registry_witness :
    dispatch_tool (fun _ _ => .ok (jobj [])) "frobnozzle" Json.null
      = (.error ("Unknown tool: " ++ "frobnozzle"), [])
  ∧ ∃ r t, dispatch_tool (fun _ _ => .ok (jobj [])) "get_page"
        (jobj [("page_name", .str "p"), ("uuid", .str "u"), ("content", .str "c"),
               ("query", .str "q"), ("parent_uuid", .str "s")]) = (.ok r, t) :=
  ⟨(C5_registry_and_dispatch_agree Json.null Json.null
      (fun _ _ => .ok (jobj []))).2.2.2.1 "frobnozzle" (by decide),
   (C5_registry_and_dispatch_agree Json.null Json.null
      (fun _ _ => .ok (jobj []))).2.2.2.2 "get_page" (by decide)⟩

/-- C6: a `tools/call` whose params.name is a string outside the ten
registered names is answered (Emit) with a -32603 error — not -32601 — whose
message embeds the unknown name. -/
theorem C6_unknown_tool_reports_internal_error (b : Backend) (id params : Json)
    (name : String)
    (hname : (params.get "name").bind Json.asStr = some name)
    (h : name ∉ toolNameList) :
    handle_request (jobj [("jsonrpc", .str "2.0"), ("id", id),
        ("method", .str "tools/call"), ("params", params)]) b
      = (.ok (toolErrorResponse id ("Tool execution failed: Unknown tool: " ++ name)), [])
  ∧ ∃ pre post,
      "Tool execution failed: Unknown tool: " ++ name = pre ++ name ++ post := by
  refine ⟨?_, "Tool execution failed: Unknown tool: ", "", by simp⟩
  have step : handle_request (jobj [("jsonrpc", .str "2.0"), ("id", id),
      ("method", .str "tools/call"), ("params", params)]) b
      = handle_tool_call id (jobj [("jsonrpc", .str "2.0"), ("id", id),
      ("method", .str "tools/call"), ("params", params)]) b := rfl
  rw [step]
  unfold handle_tool_call
  split
  · next heq =>
    simp [jobj, Json.get, JsonO.ofList, JsonO.lookupKey] at heq
  · next ps heq =>
    have hps : ps = params := by
      simp [jobj, Json.get, JsonO.ofList, JsonO.lookupKey] at heq
      exact heq.symm
    rw [hps, hname]
    dsimp only
    rw [dispatch_tool_unknown b ((params.get "arguments").getD (jobj [])) name h]
    rfl

/-- Witness for C6 at a concrete unknown tool name. -/
theorem C6_unknown_tool_witness :
    ("frobnozzle" ∉ toolNameList)
  ∧ handle_request (jobj [("jsonrpc", .str "2.0"), ("id", .num 5),
        ("method", .str "tools/call"),
        ("params", jobj [("name", .str "frobnozzle")])]) (fun _ _ => .ok (jobj []))
      = (.ok (toolErrorResponse (.num 5)
          ("Tool execution failed: Unknown tool: " ++ "frobnozzle")), []) :=
  ⟨by decide,
   (C6_unknown_tool_reports_internal_error (fun _ _ => .ok (jobj [])) (.num 5)
      (jobj [("name", .str "frobnozzle")]) "frobnozzle" rfl (by decide)).1⟩

/-- C7: a `tools/call` naming a registered tool whose arguments lack (or
bind to a non-string value) one of that tool's required parameters is
answered with a -32603 error whose message names the first such parameter in
the tool's checking order, and no backend call is made (empty trace). -/
theorem C7_missing_required_param_is_named (b : Backend) (id args : Json)
    (t : Tool) (p : String)
    (ht : t ∈ get_all_tools)
    (hp : firstMissingRequired (requiredOf t) args = some p) :
    handle_request (toolCallRequest id t.name args) b
      = (.ok (toolErrorResponse id
          ("Tool execution failed: " ++ (p ++ " parameter is required"))), []) := by
  rw [handle_tool_call_wraps]
  have hd : dispatch_tool b t.name args
      = (.error (p ++ " parameter is required"), []) := by
    simp only [get_all_tools, List.mem_cons, List.not_mem_nil, or_false] at ht
    rcases ht with rfl|rfl|rfl|rfl|rfl|rfl|rfl|rfl|rfl|rfl
    · exact absurd hp (by simp [requiredOf, firstMissingRequired])
    · exact absurd hp (by simp [requiredOf, firstMissingRequired])
    · -- get_page
      rcases hq : (args.index "page_name").asStr with _ | s
      · simp [requiredOf, firstMissingRequired, hq] at hp
        subst hp
        simp [dispatch_tool, query.get_page, hq]
      · exact absurd hp (by simp [requiredOf, firstMissingRequired, hq])
    · -- get_block
      rcases hq : (args.index "uuid").asStr with _ | s
      · simp [requiredOf, firstMissingRequired, hq] at hp
        subst hp
        simp [dispatch_tool, query.get_block, hq]
      · exact absurd hp (by simp [requiredOf, firstMissingRequired, hq])
    · -- search
      rcases hq : (args.index "query").asStr with _ | s
      · simp [requiredOf, firstMissingRequired, hq] at hp
        subst hp
        simp [dispatch_tool, query.search, hq]
      · exact absurd hp (by simp [requiredOf, firstMissingRequired, hq])
    · -- create_page
      rcases hq : (args.index "page_name").asStr with _ | s
      · simp [requiredOf, firstMissingRequired, hq] at hp
        subst hp
        simp [dispatch_tool, mutate.create_page, hq]
      · exact absurd hp (by simp [requiredOf, firstMissingRequired, hq])
    · -- update_block
      rcases hq : (args.index "uuid").asStr with _ | s
      · simp [requiredOf, firstMissingRequired, hq] at hp
        subst hp
        simp [dispatch_tool, mutate.update_block, hq]
      · rcases hc : (args.index "content").asStr with _ | s2
        · simp [requiredOf, firstMissingRequired, hq, hc] at hp
          subst hp
          simp [dispatch_tool, mutate.update_block, hq, hc]
        · exact absurd hp (by simp [requiredOf, firstMissingRequired, hq, hc])
    · -- insert_block
      rcases hq : (args.index "parent_uuid").asStr with _ | s
      · simp [requiredOf, firstMissingRequired, hq] at hp
        subst hp
        simp [dispatch_tool, mutate.insert_block, hq]
      · rcases hc : (args.index "content").asStr with _ | s2
        · simp [requiredOf, firstMissingRequired, hq, hc] at hp
          subst hp
          simp [dispatch_tool, mutate.insert_block, hq, hc]
        · exact absurd hp (by simp [requiredOf, firstMissingRequired, hq, hc])
    · -- delete_block
      rcases hq : (args.index "uuid").asStr with _ | s
      · simp [requiredOf, firstMissingRequired, hq] at hp
        subst hp
        simp [dispatch_tool, mutate.delete_block, hq]
      · exact absurd hp (by simp [requiredOf, firstMissingRequired, hq])
    · -- append_to_page
      rcases hq : (args.index "page_name").asStr with _ | s
      · simp [requiredOf, firstMissingRequired, hq] at hp
        subst hp
        simp [dispatch_tool, mutate.append_to_page, hq]
      · rcases hc : (args.index "content").asStr with _ | s2
        · simp [requiredOf, firstMissingRequired, hq, hc] at hp
          subst hp
          simp [dispatch_tool, mutate.append_to_page, hq, hc]
        · exact absurd hp (by simp [requiredOf, firstMissingRequired, hq, hc])
  rw [hd]

/-- Witness for C7: update_block called with only uuid yields the -32603
error naming content. -/
theorem C7_update_block_witness :
    handle_request (toolCallRequest (.num 9) "update_block" (jobj [("uuid", .str "u")]))
        (fun _ _ => .ok (jobj []))
      = (.ok (toolErrorResponse (.num 9)
          ("Tool execution failed: " ++ ("content" ++ " parameter is required"))), []) :=
  C7_missing_required_param_is_named (fun _ _ => .ok (jobj [])) (.num 9)
    (jobj [("uuid", .str "u")]) (get_all_tools.get ⟨6, by decide⟩) "content"
    (get_all_tools.get_mem 6 (by decide)) rfl

/-- C9: a `tools/call` of create_page with a string page_name invokes the
backend createPage operation exactly once; when no string content is
supplied the argument array carries only the page name, and when a string
content is supplied a second argument `{content, format: "markdown"}` is
attached. -/
theorem C9_create_page_arg_shapes (b : Backend) (id args : Json) (page_name : String)
    (h : (args.index "page_name").asStr = some page_name) :
    ((args.index "content").asStr = none →
      (handle_request (toolCallRequest id "create_page" args) b).2
        = [("logseq.Editor.createPage", [.str page_name])])
  ∧ (∀ c, (args.index "content").asStr = some c →
      (handle_request (toolCallRequest id "create_page" args) b).2
        = [("logseq.Editor.createPage",
            [.str page_name, jobj [("content", .str c), ("format", .str "markdown")]])]) := by
  have key : ∀ (content : Option String),
      (args.index "content").asStr = content →
      (mutate.create_page b args).2
        = [("logseq.Editor.createPage",
            [Json.str page_name] ++
              (match content with
               | some c => [jobj [("content", .str c), ("format", .str "markdown")]]
               | none => []))] := by
    intro content hc
    simp only [mutate.create_page, h, hc, LogseqClient.create_page, call_api]
  constructor
  · intro hc
    rw [handle_tool_call_wraps]
    have hd : dispatch_tool b "create_page" args = mutate.create_page b args := rfl
    rw [hd]
    have h2 := key none hc
    rcases hm : mutate.create_page b args with ⟨r, t⟩
    rw [hm] at h2
    rcases r with e | v
    · simpa using h2
    · simpa using h2
  · intro c hc
    rw [handle_tool_call_wraps]
    have hd : dispatch_tool b "create_page" args = mutate.create_page b args := rfl
    rw [hd]
    have h2 := key (some c) hc
    rcases hm : mutate.create_page b args with ⟨r, t⟩
    rw [hm] at h2
    rcases r with e | v
    · simpa using h2
    · simpa using h2

/-- Witness for C9 at concrete inputs: create_page without content, and
create_page with string content. -/
theorem C9_create_page_witness :
    (handle_request (toolCallRequest (.num 4) "create_page"
        (jobj [("page_name", .str "P")])) (fun _ _ => .ok (jobj []))).2
      = [("logseq.Editor.createPage", [.str "P"])]
  ∧ (handle_request (toolCallRequest (.num 4) "create_page"
        (jobj [("page_name", .str "P"), ("content", .str "hello")]))
        (fun _ _ => .ok (jobj []))).2
      = [("logseq.Editor.createPage",
          [.str "P", jobj [("content", .str "hello"), ("format", .str "markdown")]])] :=
  ⟨(C9_create_page_arg_shapes (fun _ _ => .ok (jobj [])) (.num 4)
      (jobj [("page_name", .str "P")]) "P" rfl).1 rfl,
   (C9_create_page_arg_shapes (fun _ _ => .ok (jobj [])) (.num 4)
      (jobj [("page_name", .str "P"), ("content", .str "hello")]) "P" rfl).2 "hello" rfl⟩

/-- C10: on any non-object arguments value, string-key indexing yields null,
so every handler with required parameters fails totally (no backend call,
empty trace) naming its first required parameter, while the two handlers
without required parameters ignore the arguments entirely and proceed to
their single backend call. -/
theorem C10_handlers_total_on_any_args (b : Backend) (args : Json)
    (h : args.isObj = false) :
    (∀ key, args.index key = Json.null)
  ∧ query.get_page b args = (.error "page_name parameter is required", [])
  ∧ query.get_block b args = (.error "uuid parameter is required", [])
  ∧ query.search b args = (.error "query parameter is required", [])
  ∧ mutate.create_page b args = (.error "page_name parameter is required", [])
  ∧ mutate.update_block b args = (.error "uuid parameter is required", [])
  ∧ mutate.insert_block b args = (.error "parent_uuid parameter is required", [])
  ∧ mutate.delete_block b args = (.error "uuid parameter is required", [])
  ∧ mutate.append_to_page b args = (.error "page_name parameter is required", [])
  ∧ (∀ a a2, query.list_graphs b a = query.list_graphs b a2)
  ∧ (∀ a a2, query.list_pages b a = query.list_pages b a2)
  ∧ (query.list_graphs b args).2 = [("logseq.App.getCurrentGraph", [])]
  ∧ (query.list_pages b args).2 = [("logseq.Editor.getAllPages", [])] := by
  cases args
  case obj es => simp [Json.isObj] at h
  all_goals exact ⟨fun key => rfl, rfl, rfl, rfl, rfl, rfl, rfl, rfl, rfl,
    fun a a2 => rfl, fun a a2 => rfl, rfl, rfl⟩

/-- Witness for C10 at a concrete non-object arguments value. -/
theorem C10_non_object_witness :
    (Json.str "zap").isObj = false
  ∧ mutate.update_block (fun _ _ => .ok (jobj [])) (.str "zap")
      = (.error "uuid parameter is required", []) :=
  ⟨rfl, (C10_handlers_total_on_any_args (fun _ _ => .ok (jobj []))
     (.str "zap") rfl).2.2.2.2.2.1⟩
